import Mathlib

/-!
Shallow embedding of the cooking-mode timer engine of
`static/javascript/cuisiner.js` (the optimized, timestamp-based version).

Times are integers: clock readings (`now`) and `endTime` are in
milliseconds, remaining times and `total` in seconds, durations are given
in whole minutes as in the calls of the page to `startTimer`.  The global DOM
state a timer mutates (displayed time text, progress classes, visible
button) is carried in the same record as the timer bookkeeping, since the
claims talk about the reported display and the finished state.  Side
effects that leave the page (sounds, notifications) are returned as event
lists.
-/

namespace Cuisiner

/-- `Math.ceil(a / b)` for integer `a` and positive integer `b`
(JS divides exactly in floats, then takes the ceiling; for integers this
is ceiling division).  `Int` division `/` is Euclidean, i.e. floor for a
positive divisor, so the ceiling is `-((-a) / b)`. -/
def ceilDiv (a b : Int) : Int := -((-a) / b)

/-- Which of the three per-step buttons `updateTimerButtons` leaves
visible: stopped shows the start button, running shows pause, paused shows
resume. -/
inductive BtnState
  | stopped
  | running
  | paused
deriving Repr, DecidableEq

/-- Side effects of a single timer that leave the page: the warning beep
`NotificationSound.playWarning()` at 30 s, and the bundle emitted by
`timerFinished` (notification, system notification, finish melody). -/
inductive TimerEvent
  | warningSound
  | finishedNotify
deriving Repr, DecidableEq

/-- Side effect of the global progress bar: the session-complete bundle
(`showNotification`, system notification, `playCelebration`) emitted by
`updateGlobalProgress` when all steps are completed. -/
inductive SessionEvent
  | sessionComplete
deriving Repr, DecidableEq

/-- One entry of the global `timers` map together with the DOM state of
its step.  `endTime`, `pausedRemaining` and `startTime` are nullable in
the source, hence `Option`; `interval` records whether a `setInterval`
handle is live (`null` vs an id).  `displayedRemaining` mirrors the
rendered `timer-time` text (in seconds), `warningCls`/`criticalCls`/
`finishedCls` mirror the `rd-timer-*` classes, `buttons` the visible
control. -/
structure Timer where
  endTime : Option Int
  total : Int
  interval : Bool
  isPaused : Bool
  pausedRemaining : Option Int
  startTime : Option Int
  warningSoundPlayed : Bool
  buttons : BtnState
  displayedRemaining : Int
  warningCls : Bool
  criticalCls : Bool
  finishedCls : Bool
deriving Repr, DecidableEq

/-- `Math.max(0, Math.ceil((endTime - Date.now()) / 1000))`, the single
formula every remaining-time computation in the file uses. -/
def remainingSeconds (endTime now : Int) : Int :=
  max 0 (ceilDiv (endTime - now) 1000)

/-- JS arithmetic coerces `null` to `0`, so reads of a nullable number
inside the remaining-time formula go through `Option.getD 0`. -/
def endTimeVal (t : Timer) : Int := t.endTime.getD 0

/-- `updateTimerDisplay(etapeId, remaining, total)`: renders the time
text, then swaps the warning/critical classes; inside the critical
branch, when `remaining === 30` and the `warningSoundPlayed` flag is not
yet set, plays the warning sound once and sets the flag. -/
def updateTimerDisplay (t : Timer) (remaining : Int) : Timer × List TimerEvent :=
  let t1 := { t with displayedRemaining := remaining,
                     warningCls := false, criticalCls := false }
  if remaining ≤ 30 then
    if remaining = 30 ∧ t1.warningSoundPlayed = false then
      ({ t1 with criticalCls := true, warningSoundPlayed := true },
       [TimerEvent.warningSound])
    else
      ({ t1 with criticalCls := true }, [])
  else if remaining ≤ 60 then
    ({ t1 with warningCls := true }, [])
  else
    (t1, [])

/-- `timerFinished(etapeId)`: clears the warning/critical classes, adds
the finished class, resets the buttons to stopped and emits the finish
notification/melody bundle. -/
def timerFinished (t : Timer) : Timer × List TimerEvent :=
  ({ t with warningCls := false, criticalCls := false, finishedCls := true,
            buttons := BtnState.stopped },
   [TimerEvent.finishedNotify])

/-- `stopTimerLoop(etapeId)`: clears the interval handle. -/
def stopTimerLoop (t : Timer) : Timer := { t with interval := false }

/-- The body of the `setInterval` callback installed by
`runTimerLoop(etapeId)`, evaluated at clock reading `now`. -/
def tick (t : Timer) (now : Int) : Timer × List TimerEvent :=
  if t.isPaused then (t, [])
  else
    let remaining := remainingSeconds (endTimeVal t) now
    if 0 < remaining then
      updateTimerDisplay t remaining
    else
      let p2 := updateTimerDisplay (stopTimerLoop t) 0
      let p3 := timerFinished p2.1
      (p3.1, p2.2 ++ p3.2)

/-- The host scheduler only invokes the callback while the interval
handle is live (`clearInterval` stops deliveries), so a scheduled tick
on a timer whose loop was stopped is a no-op. -/
def tickIfScheduled (t : Timer) (now : Int) : Timer × List TimerEvent :=
  if t.interval then tick t now else (t, [])

/-- A run of the timer loop: scheduled ticks delivered at the given list
of clock readings, accumulating the emitted events in delivery order. -/
def runTicks (t : Timer) : List Int → Timer × List TimerEvent
  | [] => (t, [])
  | now :: rest =>
    let p := tickIfScheduled t now
    let q := runTicks p.1 rest
    (q.1, p.2 ++ q.2)

/-- `updateTimerFromTimestamp(etapeId)`: the resync path, called right
after start and on visibility change; recomputes remaining from the
absolute end timestamp, re-renders, and finishes the timer if it elapsed
while its loop is still live. -/
def updateTimerFromTimestamp (t : Timer) (now : Int) : Timer × List TimerEvent :=
  if t.isPaused then (t, [])
  else
    let remaining := remainingSeconds (endTimeVal t) now
    let p1 := updateTimerDisplay t remaining
    if remaining = 0 ∧ p1.1.interval then
      let p2 := timerFinished (stopTimerLoop p1.1)
      (p2.1, p1.2 ++ p2.2)
    else
      p1

/-- `startTimer(etapeId, minutes)` at clock reading `now`: replaces the
timer record (end timestamp `now + minutes*60*1000`, flags cleared),
shows the pause button, starts the loop (`runTimerLoop`, so the interval
is live), and immediately resyncs via `updateTimerFromTimestamp`.  The
previously rendered classes of the step are untouched (only `resetTimer`
removes `rd-timer-finished`). -/
def startTimer (t : Timer) (minutes now : Int) : Timer × List TimerEvent :=
  let totalSeconds := minutes * 60
  let t1 : Timer :=
    { t with endTime := some (now + totalSeconds * 1000),
             total := totalSeconds,
             interval := true,
             isPaused := false,
             pausedRemaining := none,
             startTime := some now,
             warningSoundPlayed := false,
             buttons := BtnState.running }
  updateTimerFromTimestamp t1 now

/-- `pauseTimer(etapeId)` at clock reading `now`: no-op unless the
interval is live; otherwise snapshots the remaining time, marks the
timer paused, stops the loop and shows the resume button. -/
def pauseTimer (t : Timer) (now : Int) : Timer :=
  if t.interval = false then t
  else
    { t with pausedRemaining := some (remainingSeconds (endTimeVal t) now),
             isPaused := true,
             interval := false,
             buttons := BtnState.paused }

/-- `resumeTimer(etapeId)` at clock reading `now`: no-op unless paused
with a non-null snapshot; otherwise recomputes the end timestamp from
the snapshot, clears the snapshot, restarts the loop and shows the pause
button. -/
def resumeTimer (t : Timer) (now : Int) : Timer :=
  if t.isPaused = false ∨ t.pausedRemaining = none then t
  else
    { t with endTime := some (now + t.pausedRemaining.getD 0 * 1000),
             isPaused := false,
             pausedRemaining := none,
             interval := true,
             buttons := BtnState.running }

/-- `resetTimer(etapeId, minutes)`: stops the loop, replaces the record
with a blank one (null end timestamp, flags cleared), renders the full
duration, shows the start button and strips all timer classes. -/
def resetTimer (t : Timer) (minutes : Int) : Timer × List TimerEvent :=
  let totalSeconds := minutes * 60
  let t1 : Timer :=
    { t with endTime := none,
             total := totalSeconds,
             interval := false,
             isPaused := false,
             pausedRemaining := none,
             startTime := none,
             warningSoundPlayed := false }
  let p := updateTimerDisplay t1 totalSeconds
  ({ p.1 with buttons := BtnState.stopped,
              warningCls := false, criticalCls := false, finishedCls := false },
   p.2)

/-- The state of a step that has never had `startTimer` called: no timer
record fields populated, pristine DOM. -/
def initTimer : Timer :=
  { endTime := none, total := 0, interval := false, isPaused := false,
    pausedRemaining := none, startTime := none, warningSoundPlayed := false,
    buttons := BtnState.stopped, displayedRemaining := 0,
    warningCls := false, criticalCls := false, finishedCls := false }

/-- `handleVisibilityChange()` at clock reading `now`: when the document
is not hidden, resyncs (via `updateTimerFromTimestamp`) every timer that
is not paused and has a truthy `endTime` (non-null and non-zero); hidden,
or for timers failing the guard, nothing happens. -/
def handleVisibilityChange (reg : List Timer) (now : Int) (hidden : Bool) :
    List (Timer × List TimerEvent) :=
  if hidden then reg.map (fun t => (t, []))
  else
    reg.map (fun t =>
      if t.isPaused = false ∧ endTimeVal t ≠ 0 then updateTimerFromTimestamp t now
      else (t, []))

/-- The session-progress state: the `completedSteps` set and the number
of `.rd-step` elements on the page. -/
structure Session where
  completedSteps : Finset Nat
  totalSteps : Nat
deriving DecidableEq

/-- `updateGlobalProgress()`: re-renders `completed / total` and the bar,
then, whenever `completed === totalSteps && totalSteps > 0`, emits the
session-complete bundle (notification, system notification,
celebration melody).  There is no idempotency flag. -/
def updateGlobalProgress (s : Session) : List SessionEvent :=
  if s.completedSteps.card = s.totalSteps ∧ 0 < s.totalSteps then
    [SessionEvent.sessionComplete]
  else []

/-- `completeStep(etapeId)` restricted to the aggregate state: adds the
id to `completedSteps` (a JS `Set`, so duplicate insertion is absorbed)
and runs `updateGlobalProgress` on the new state.  (Stopping the
own timer loop of the step and the status/scroll DOM updates touch only per-step
state and are orthogonal to the aggregate.) -/
def completeStep (s : Session) (stepId : Nat) : Session × List SessionEvent :=
  let s1 : Session := { s with completedSteps := insert stepId s.completedSteps }
  (s1, updateGlobalProgress s1)

/-- The progress report `(completed, total, ratio)` derived exactly as
`updateGlobalProgress` computes its text and percentage. -/
def getProgress (s : Session) : Nat × Nat × ℚ :=
  (s.completedSteps.card, s.totalSteps,
   if 0 < s.totalSteps then (s.completedSteps.card : ℚ) / (s.totalSteps : ℚ) else 0)

/-- Timer states reachable from a fresh step by the exported operations
(start, pause, resume, reset, a delivered tick, a visibility resync). -/
inductive Reachable : Timer → Prop
  | init : Reachable initTimer
  | start (t : Timer) (m n : Int) : Reachable t → Reachable (startTimer t m n).1
  | pause (t : Timer) (n : Int) : Reachable t → Reachable (pauseTimer t n)
  | resume (t : Timer) (n : Int) : Reachable t → Reachable (resumeTimer t n)
  | reset (t : Timer) (m : Int) : Reachable t → Reachable (resetTimer t m).1
  | tickSched (t : Timer) (n : Int) : Reachable t → Reachable (tickIfScheduled t n).1
  | resync (t : Timer) (n : Int) : Reachable t → Reachable (updateTimerFromTimestamp t n).1

/-- Indicator of the `warningSoundPlayed` flag, for counting the warning
beeps a run emits. -/
def wInd (t : Timer) : Nat := if t.warningSoundPlayed then 1 else 0

/-- The snapshot/pause-flag invariant of the timer record: paused states
carry a snapshot and a stopped loop; non-paused states carry no
snapshot. -/
def pauseInv (t : Timer) : Prop :=
  (t.isPaused = true → t.pausedRemaining ≠ none ∧ t.interval = false)
  ∧ (t.isPaused = false → t.pausedRemaining = none)

/-! Helper lemmas about the individual operations. -/

/-- Rendering sets the displayed time to the value it is given. -/
@[simp] theorem updTD_displayedRemaining (t : Timer) (r : Int) :
    (updateTimerDisplay t r).1.displayedRemaining = r := by
  simp only [updateTimerDisplay]
  split_ifs <;> simp

/-- Rendering never touches the pause flag. -/
@[simp] theorem updTD_isPaused (t : Timer) (r : Int) :
    (updateTimerDisplay t r).1.isPaused = t.isPaused := by
  simp only [updateTimerDisplay]
  split_ifs <;> simp

/-- Rendering never touches the interval handle. -/
@[simp] theorem updTD_interval (t : Timer) (r : Int) :
    (updateTimerDisplay t r).1.interval = t.interval := by
  simp only [updateTimerDisplay]
  split_ifs <;> simp

/-- Rendering never touches the end timestamp. -/
@[simp] theorem updTD_endTime (t : Timer) (r : Int) :
    (updateTimerDisplay t r).1.endTime = t.endTime := by
  simp only [updateTimerDisplay]
  split_ifs <;> simp

/-- Rendering never touches the pause snapshot. -/
@[simp] theorem updTD_pausedRemaining (t : Timer) (r : Int) :
    (updateTimerDisplay t r).1.pausedRemaining = t.pausedRemaining := by
  simp only [updateTimerDisplay]
  split_ifs <;> simp

/-- Rendering never touches the configured total. -/
@[simp] theorem updTD_total (t : Timer) (r : Int) :
    (updateTimerDisplay t r).1.total = t.total := by
  simp only [updateTimerDisplay]
  split_ifs <;> simp

/-- Rendering never touches the buttons. -/
@[simp] theorem updTD_buttons (t : Timer) (r : Int) :
    (updateTimerDisplay t r).1.buttons = t.buttons := by
  simp only [updateTimerDisplay]
  split_ifs <;> simp

/-- Rendering never touches the finished class. -/
@[simp] theorem updTD_finishedCls (t : Timer) (r : Int) :
    (updateTimerDisplay t r).1.finishedCls = t.finishedCls := by
  simp only [updateTimerDisplay]
  split_ifs <;> simp

/-- The warning flag after rendering: set exactly when it was already set
or the rendered value is 30. -/
@[simp] theorem updTD_warningSoundPlayed (t : Timer) (r : Int) :
    (updateTimerDisplay t r).1.warningSoundPlayed
      = (t.warningSoundPlayed || decide (r = 30)) := by
  simp only [updateTimerDisplay]
  split_ifs with h1 h2 h3
  · simp_all
  · cases hb : t.warningSoundPlayed with
    | false =>
      have hr : r ≠ 30 := fun hr => h2 ⟨hr, hb⟩
      simp_all
    | true => simp_all
  · have hr : r ≠ 30 := by omega
    simp_all
  · have hr : r ≠ 30 := by omega
    simp_all

/-- The events emitted by rendering: the warning beep exactly when the
value is 30 and the flag was clear. -/
@[simp] theorem updTD_events (t : Timer) (r : Int) :
    (updateTimerDisplay t r).2
      = if r = 30 ∧ t.warningSoundPlayed = false then [TimerEvent.warningSound]
        else [] := by
  simp only [updateTimerDisplay]
  split_ifs with h1 h2 h3 <;> simp_all

/-- The remaining-time formula never yields a negative value. -/
theorem remainingSeconds_nonneg (e now : Int) : 0 ≤ remainingSeconds e now := by
  simp only [remainingSeconds, ceilDiv]
  omega

/-- Resync on a paused timer returns immediately. -/
theorem resync_paused (t : Timer) (now : Int) (h : t.isPaused = true) :
    updateTimerFromTimestamp t now = (t, []) := by
  simp [updateTimerFromTimestamp, h]

/-- A delivered tick on a paused timer returns immediately. -/
theorem tick_paused (t : Timer) (now : Int) (h : t.isPaused = true) :
    tick t now = (t, []) := by
  simp [tick, h]

/-- Resync always reports exactly the timestamp-derived remaining time
(on a non-paused timer). -/
theorem resync_displayedRemaining (t : Timer) (now : Int) (h : t.isPaused = false) :
    (updateTimerFromTimestamp t now).1.displayedRemaining
      = remainingSeconds (endTimeVal t) now := by
  simp only [updateTimerFromTimestamp]
  split_ifs with h1 h2
  · simp [h] at h1
  · simp only [timerFinished, stopTimerLoop]
    simp [h2.1]
  · simp

/-- A delivered tick reports exactly the timestamp-derived remaining time
(on a non-paused timer). -/
theorem tick_displayedRemaining (t : Timer) (now : Int) (h : t.isPaused = false) :
    (tick t now).1.displayedRemaining = remainingSeconds (endTimeVal t) now := by
  have h0 := remainingSeconds_nonneg (endTimeVal t) now
  simp only [tick]
  split_ifs with h1 h2
  · simp [h] at h1
  · simp
  · simp only [timerFinished, stopTimerLoop]
    simp
    omega

/-- Resync never touches the pause flag, the snapshot, the end timestamp
or the total. -/
theorem resync_preserves (t : Timer) (now : Int) :
    (updateTimerFromTimestamp t now).1.isPaused = t.isPaused
    ∧ (updateTimerFromTimestamp t now).1.pausedRemaining = t.pausedRemaining
    ∧ (updateTimerFromTimestamp t now).1.endTime = t.endTime
    ∧ (updateTimerFromTimestamp t now).1.total = t.total := by
  simp only [updateTimerFromTimestamp]
  split_ifs with h hc
  · simp
  · simp [timerFinished, stopTimerLoop]
  · simp

/-- A delivered tick never touches the pause flag, the snapshot, the end
timestamp or the total. -/
theorem tick_preserves (t : Timer) (now : Int) :
    (tick t now).1.isPaused = t.isPaused
    ∧ (tick t now).1.pausedRemaining = t.pausedRemaining
    ∧ (tick t now).1.endTime = t.endTime
    ∧ (tick t now).1.total = t.total := by
  simp only [tick]
  split_ifs with h hc
  · simp
  · simp
  · simp [timerFinished, stopTimerLoop]

theorem wInd_le_one (t : Timer) : wInd t ≤ 1 := by
  simp only [wInd]
  split_ifs <;> omega

/-- Rendering emits exactly the beeps that flip the flag. -/
theorem updTD_warningCount (t : Timer) (r : Int) :
    (updateTimerDisplay t r).2.count TimerEvent.warningSound + wInd t
      = wInd (updateTimerDisplay t r).1 := by
  by_cases hr : r = 30 <;> cases hb : t.warningSoundPlayed <;>
    simp_all [wInd]

/-- A delivered tick emits exactly the warning beeps that flip the flag. -/
theorem tick_warningCount (t : Timer) (now : Int) :
    (tick t now).2.count TimerEvent.warningSound + wInd t
      = wInd (tick t now).1 := by
  simp only [tick]
  split_ifs with h1 h2
  · simp
  · exact updTD_warningCount t _
  · show ((updateTimerDisplay (stopTimerLoop t) 0).2
        ++ (timerFinished (updateTimerDisplay (stopTimerLoop t) 0).1).2).count
          TimerEvent.warningSound + wInd t
      = wInd (timerFinished (updateTimerDisplay (stopTimerLoop t) 0).1).1
    rw [List.count_append]
    have hh := updTD_warningCount (stopTimerLoop t) 0
    have h3 : wInd (stopTimerLoop t) = wInd t := rfl
    rw [h3] at hh
    have h4 : (timerFinished (updateTimerDisplay (stopTimerLoop t) 0).1).2.count
        TimerEvent.warningSound = 0 := rfl
    have h5 : wInd (timerFinished (updateTimerDisplay (stopTimerLoop t) 0).1).1
        = wInd (updateTimerDisplay (stopTimerLoop t) 0).1 := rfl
    rw [h4, h5]
    omega

/-- A scheduled tick (delivered or suppressed) emits exactly the warning
beeps that flip the flag. -/
theorem tickIfScheduled_warningCount (t : Timer) (now : Int) :
    (tickIfScheduled t now).2.count TimerEvent.warningSound + wInd t
      = wInd (tickIfScheduled t now).1 := by
  simp only [tickIfScheduled]
  split_ifs with h1
  · exact tick_warningCount t now
  · simp

/-- A scheduled tick never touches the pause flag or the snapshot. -/
theorem tickIfScheduled_preserves (t : Timer) (now : Int) :
    (tickIfScheduled t now).1.isPaused = t.isPaused
    ∧ (tickIfScheduled t now).1.pausedRemaining = t.pausedRemaining := by
  simp only [tickIfScheduled]
  split_ifs with h1
  · exact ⟨(tick_preserves t now).1, (tick_preserves t now).2.1⟩
  · exact ⟨rfl, rfl⟩

/-- Across any run, the number of warning beeps equals the net flip of the flag: the flag-guard makes the beep at most once per run. -/
theorem runTicks_warningCount (t : Timer) (ts : List Int) :
    (runTicks t ts).2.count TimerEvent.warningSound + wInd t
      = wInd (runTicks t ts).1 := by
  induction ts generalizing t with
  | nil => simp [runTicks]
  | cons n rest ih =>
    have h1 := tickIfScheduled_warningCount t n
    have h2 := ih (tickIfScheduled t n).1
    simp only [runTicks, List.count_append]
    omega

/-- Everything `startTimer` establishes, for a positive duration: fresh
record with the absolute end timestamp, live loop, cleared flags, and an
immediately rendered full-duration display with no side effects. -/
theorem startTimer_run_pos (t : Timer) (m n : Int) (hm : 0 < m) :
    (startTimer t m n).1.endTime = some (n + m * 60 * 1000)
    ∧ (startTimer t m n).1.total = m * 60
    ∧ (startTimer t m n).1.interval = true
    ∧ (startTimer t m n).1.isPaused = false
    ∧ (startTimer t m n).1.pausedRemaining = none
    ∧ (startTimer t m n).1.warningSoundPlayed = false
    ∧ (startTimer t m n).1.buttons = BtnState.running
    ∧ (startTimer t m n).1.displayedRemaining = m * 60
    ∧ (startTimer t m n).2 = [] := by
  have hr : remainingSeconds (n + m * 60 * 1000) n = m * 60 := by
    simp only [remainingSeconds, ceilDiv]
    omega
  have hne : ¬(m * 60 = 0) := by omega
  have h30 : ¬(m * 60 = 30) := by omega
  simp [startTimer, updateTimerFromTimestamp, endTimeVal, hr, hne, h30]

theorem pauseInv_of_fields (t : Timer) (h1 : t.isPaused = false)
    (h2 : t.pausedRemaining = none) : pauseInv t := by
  refine ⟨fun hp => ?_, fun _ => h2⟩
  rw [h1] at hp
  simp at hp

/-- The snapshot invariant holds in every reachable timer state. -/
theorem reachable_pauseInv (t : Timer) (h : Reachable t) : pauseInv t := by
  induction h with
  | init => exact pauseInv_of_fields _ rfl rfl
  | start t m n _ ih =>
    refine pauseInv_of_fields _ ?_ ?_
    · simp only [startTimer]
      rw [(resync_preserves _ _).1]
    · simp only [startTimer]
      rw [(resync_preserves _ _).2.1]
  | pause t n _ ih =>
    by_cases hi : t.interval = false
    · simpa [pauseTimer, hi] using ih
    · unfold pauseTimer
      rw [if_neg hi]
      exact ⟨fun _ => ⟨by simp, rfl⟩, fun hp => by simp at hp⟩
  | resume t n _ ih =>
    by_cases hc : t.isPaused = false ∨ t.pausedRemaining = none
    · unfold resumeTimer
      rw [if_pos hc]
      exact ih
    · unfold resumeTimer
      rw [if_neg hc]
      exact pauseInv_of_fields _ rfl rfl
  | reset t m _ ih =>
    refine pauseInv_of_fields _ ?_ ?_ <;> simp [resetTimer]
  | tickSched t n _ ih =>
    by_cases hp : t.isPaused = true
    · have hint : t.interval = false := (ih.1 hp).2
      have : tickIfScheduled t n = (t, []) := by
        simp [tickIfScheduled, hint]
      rw [this]
      exact ih
    · have hp' : t.isPaused = false := by simpa using hp
      refine pauseInv_of_fields _ ?_ ?_
      · rw [(tickIfScheduled_preserves t n).1, hp']
      · rw [(tickIfScheduled_preserves t n).2, ih.2 hp']
  | resync t n _ ih =>
    by_cases hp : t.isPaused = true
    · have : updateTimerFromTimestamp t n = (t, []) := resync_paused t n hp
      rw [this]
      exact ih
    · have hp' : t.isPaused = false := by simpa using hp
      refine pauseInv_of_fields _ ?_ ?_
      · rw [(resync_preserves t n).1, hp']
      · rw [(resync_preserves t n).2.1, ih.2 hp']

/-- A resync on a running timer whose remaining time is zero finishes
it: displays 0, marks the step finished, stops the loop and emits the
finish bundle. -/
theorem resync_finishes (t : Timer) (now : Int) (hp : t.isPaused = false)
    (hi : t.interval = true) (h0 : remainingSeconds (endTimeVal t) now = 0) :
    (updateTimerFromTimestamp t now).1.displayedRemaining = 0
    ∧ (updateTimerFromTimestamp t now).1.finishedCls = true
    ∧ (updateTimerFromTimestamp t now).1.interval = false
    ∧ TimerEvent.finishedNotify ∈ (updateTimerFromTimestamp t now).2 := by
  have hint : (updateTimerDisplay t (remainingSeconds (endTimeVal t) now)).1.interval
      = true := by
    rw [updTD_interval, hi]
  simp only [updateTimerFromTimestamp]
  rw [if_neg (by simp [hp])]
  rw [if_pos ⟨h0, hint⟩]
  refine ⟨?_, rfl, rfl, ?_⟩
  · show (updateTimerDisplay t (remainingSeconds (endTimeVal t) now)).1.displayedRemaining = 0
    rw [updTD_displayedRemaining, h0]
  · simp [timerFinished]

/-! Claim theorems. -/

/-- C1 (confirmed).  Drift invariance: for a timer started with a
positive duration of `m` minutes (`d = m*60` seconds), a clock jump of
`d*1000` ms followed by a single resync reports remaining 0, finishes
the timer and emits the finish event; and after any gap `g`, both the
resync path and the tick path report exactly
`max(0, ceil((endTimestamp - now)/1000))`, derived from the absolute end
timestamp, never from a decremented counter. -/
theorem drift_invariance (m n g : Int) (hm : 0 < m) :
    ((updateTimerFromTimestamp (startTimer initTimer m n).1
        (n + m * 60 * 1000)).1.displayedRemaining = 0
      ∧ (updateTimerFromTimestamp (startTimer initTimer m n).1
          (n + m * 60 * 1000)).1.finishedCls = true
      ∧ (updateTimerFromTimestamp (startTimer initTimer m n).1
          (n + m * 60 * 1000)).1.interval = false
      ∧ TimerEvent.finishedNotify
          ∈ (updateTimerFromTimestamp (startTimer initTimer m n).1
              (n + m * 60 * 1000)).2)
    ∧ (updateTimerFromTimestamp (startTimer initTimer m n).1
        (n + g)).1.displayedRemaining
        = max 0 (ceilDiv (m * 60 * 1000 - g) 1000)
    ∧ (tick (startTimer initTimer m n).1 (n + g)).1.displayedRemaining
        = max 0 (ceilDiv (m * 60 * 1000 - g) 1000) := by
  obtain ⟨he, -, hi, hp, -, -, -, -, -⟩ := startTimer_run_pos initTimer m n hm
  have hval : endTimeVal (startTimer initTimer m n).1 = n + m * 60 * 1000 := by
    rw [endTimeVal, he, Option.getD_some]
  refine ⟨?_, ?_, ?_⟩
  · refine resync_finishes _ _ hp hi ?_
    rw [hval]
    simp only [remainingSeconds, ceilDiv]
    omega
  · rw [resync_displayedRemaining _ _ hp, hval]
    simp only [remainingSeconds, ceilDiv]
    omega
  · rw [tick_displayedRemaining _ _ hp, hval]
    simp only [remainingSeconds, ceilDiv]
    omega

theorem drift_invariance_witness :
    (0 : Int) < 2
    ∧ (((updateTimerFromTimestamp (startTimer initTimer 2 0).1
          (0 + 2 * 60 * 1000)).1.displayedRemaining = 0
        ∧ (updateTimerFromTimestamp (startTimer initTimer 2 0).1
            (0 + 2 * 60 * 1000)).1.finishedCls = true
        ∧ (updateTimerFromTimestamp (startTimer initTimer 2 0).1
            (0 + 2 * 60 * 1000)).1.interval = false
        ∧ TimerEvent.finishedNotify
            ∈ (updateTimerFromTimestamp (startTimer initTimer 2 0).1
                (0 + 2 * 60 * 1000)).2)
      ∧ (updateTimerFromTimestamp (startTimer initTimer 2 0).1
          (0 + 50000)).1.displayedRemaining
          = max 0 (ceilDiv (2 * 60 * 1000 - 50000) 1000)
      ∧ (tick (startTimer initTimer 2 0).1 (0 + 50000)).1.displayedRemaining
          = max 0 (ceilDiv (2 * 60 * 1000 - 50000) 1000)) :=
  ⟨by decide, drift_invariance 2 0 50000 (by decide)⟩

/-- C2 counterexample.  With a 60-second timer, ticks delivered at
29 000 ms and 31 500 ms observe remaining 31 and then 29: the clock
crosses the 30-second mark exactly once between them, yet the warning
sound fires zero times (the code requires a tick to observe
`remaining === 30` exactly), contradicting the claimed
"not zero times when a tick gap skips over the threshold instant". -/
theorem warning_skip_counterexample :
    remainingSeconds 60000 29000 = 31
    ∧ remainingSeconds 60000 31500 = 29
    ∧ (runTicks (startTimer initTimer 1 0).1 [29000, 31500]).2.count
        TimerEvent.warningSound = 0
    ∧ (runTicks (startTimer initTimer 1 0).1
        [29000, 31500]).1.warningSoundPlayed = false := by decide

/-- C2 (corrected).  The warning side effect fires at most once per run
(the `warningSoundPlayed` guard), and exactly once in a run where some
tick observes remaining exactly 30; but a run whose ticks skip over the
instant fires it zero times. -/
theorem warning_sound_at_most_once (t : Timer) (ts : List Int) :
    (runTicks t ts).2.count TimerEvent.warningSound ≤ 1
    ∧ (runTicks (startTimer initTimer 1 0).1 [30000, 30050, 31000]).2.count
        TimerEvent.warningSound = 1 := by
  constructor
  · have h1 := runTicks_warningCount t ts
    have h2 := wInd_le_one (runTicks t ts).1
    omega
  · decide

/-- C3 counterexample.  Register 3 steps, complete steps 1, 2, 3 (the
third call fires the session-complete bundle), then call `completeStep`
on step 1 again: the count stays 3 but the session-complete side effect
fires a second time, contradicting "does not re-fire it". -/
theorem session_refire_counterexample :
    (completeStep (completeStep (completeStep
        (Session.mk ∅ 3) 1).1 2).1 3).2 = [SessionEvent.sessionComplete]
    ∧ (completeStep (completeStep (completeStep (completeStep
        (Session.mk ∅ 3) 1).1 2).1 3).1 1).2 = [SessionEvent.sessionComplete]
    ∧ (completeStep (completeStep (completeStep (completeStep
        (Session.mk ∅ 3) 1).1 2).1 3).1 1).1.completedSteps.card = 3 := by decide

/-- C3 (corrected).  `completeStep` on an already-completed step leaves
the aggregate state unchanged (set insertion is absorbed), but the
session-complete side effect is re-emitted on every such call whenever
`completed == total > 0`: there is no once-only guard. -/
theorem completeStep_repeat (s : Session) (stepId : Nat)
    (h : stepId ∈ s.completedSteps) :
    (completeStep s stepId).1 = s
    ∧ ((completeStep s stepId).2.count SessionEvent.sessionComplete
        = if s.completedSteps.card = s.totalSteps ∧ 0 < s.totalSteps then 1
          else 0) := by
  have hins : insert stepId s.completedSteps = s.completedSteps :=
    Finset.insert_eq_self.mpr h
  have hs : ({ s with completedSteps := insert stepId s.completedSteps } : Session)
      = s := by
    rw [hins]
  constructor
  · exact hs
  · show (updateGlobalProgress
        { s with completedSteps := insert stepId s.completedSteps }).count _ = _
    rw [hs]
    unfold updateGlobalProgress
    split_ifs <;> simp

theorem completeStep_repeat_witness :
    1 ∈ (Session.mk {1} 1).completedSteps
    ∧ ((completeStep (Session.mk {1} 1) 1).1 = Session.mk {1} 1
      ∧ ((completeStep (Session.mk {1} 1) 1).2.count SessionEvent.sessionComplete
          = if (Session.mk {1} 1).completedSteps.card = (Session.mk {1} 1).totalSteps
              ∧ 0 < (Session.mk {1} 1).totalSteps then 1 else 0)) :=
  ⟨by decide, completeStep_repeat (Session.mk {1} 1) 1 (by decide)⟩

/-- C4 counterexample.  `startTimer` with the non-positive duration `-1`
minute mutates state (fresh record with `total = -60`, an end timestamp
in the past) and even fires the finish bundle immediately; `resetTimer`
with `-1` likewise installs `total = -60`.  No validation precedes the
mutation, contradicting "rejected before any state mutation". -/
theorem invalid_duration_counterexample :
    (startTimer initTimer (-1) 0).1 ≠ initTimer
    ∧ (startTimer initTimer (-1) 0).1.total = -60
    ∧ (startTimer initTimer (-1) 0).1.endTime = some (-60000)
    ∧ (startTimer initTimer (-1) 0).2 = [TimerEvent.finishedNotify]
    ∧ (resetTimer initTimer (-1)).1.total = -60 := by decide

/-- C4 (corrected).  `startTimer` and `resetTimer` perform no duration
validation at all: for every duration, including non-positive ones, they
unconditionally install `total = minutes*60` and the corresponding end
timestamp (`start`) or a null one (`reset`). -/
theorem start_reset_unvalidated (t : Timer) (m n : Int) :
    (startTimer t m n).1.total = m * 60
    ∧ (startTimer t m n).1.endTime = some (n + m * 60 * 1000)
    ∧ (resetTimer t m).1.total = m * 60
    ∧ (resetTimer t m).1.endTime = none := by
  refine ⟨?_, ?_, ?_, ?_⟩
  · simp only [startTimer]
    rw [(resync_preserves _ _).2.2.2]
  · simp only [startTimer]
    rw [(resync_preserves _ _).2.2.1]
  · simp [resetTimer]
  · simp [resetTimer]

/-- C5 counterexample.  Start a 2-minute timer at clock 0 and pause at
clock 1000: the resulting state is `Paused` with `pausedRemaining`
set, yet `endTime` is still `some 120000` — `pause()` does **not**
discard the end timestamp, so both fields are simultaneously set. -/
theorem pause_keeps_endTime_counterexample :
    (pauseTimer (startTimer initTimer 2 0).1 1000).isPaused = true
    ∧ (pauseTimer (startTimer initTimer 2 0).1 1000).endTime = some 120000
    ∧ (pauseTimer (startTimer initTimer 2 0).1 1000).pausedRemaining
        = some 119 := by decide

/-- C5 (corrected).  In every reachable state the snapshot is gated by
the pause flag (paused states carry a snapshot and a stopped loop,
non-paused states carry no snapshot); `pause()` computes the snapshot
`max(0, ceil((endTime - now)/1000))` and transitions to paused but
leaves `endTime` stored (only the `isPaused` gate makes it
unmeaningful), and `resume()` clears the snapshot. -/
theorem pause_resume_field_gating (t : Timer) (h : Reachable t) (n : Int) :
    pauseInv t
    ∧ (t.interval = true →
        pauseTimer t n
          = { t with pausedRemaining := some (remainingSeconds (endTimeVal t) n),
                     isPaused := true, interval := false,
                     buttons := BtnState.paused })
    ∧ (t.isPaused = true → t.pausedRemaining ≠ none →
        (resumeTimer t n).pausedRemaining = none
        ∧ (resumeTimer t n).isPaused = false) := by
  refine ⟨reachable_pauseInv t h, ?_, ?_⟩
  · intro hi
    unfold pauseTimer
    rw [if_neg (by simp [hi])]
  · intro hp hpr
    unfold resumeTimer
    rw [if_neg (by simp [hp, hpr])]
    exact ⟨rfl, rfl⟩

theorem pause_resume_field_gating_witness :
    pauseInv initTimer
    ∧ (initTimer.interval = true →
        pauseTimer initTimer 0
          = { initTimer with
                pausedRemaining := some (remainingSeconds (endTimeVal initTimer) 0),
                isPaused := true, interval := false,
                buttons := BtnState.paused })
    ∧ (initTimer.isPaused = true → initTimer.pausedRemaining ≠ none →
        (resumeTimer initTimer 0).pausedRemaining = none
        ∧ (resumeTimer initTimer 0).isPaused = false) :=
  pause_resume_field_gating initTimer Reachable.init 0

/-- C6 (confirmed).  On a visibility change to visible, every timer in
the registry that is not paused and has a truthy end timestamp is
resynced immediately from it (its resynced result is in the output), the
resync reports the timestamp-derived remaining time; and a running timer
whose end timestamp has already elapsed transitions straight to finished
and fires the finish bundle. -/
theorem visibility_resync (reg : List Timer) (now : Int) (t : Timer)
    (ht : t ∈ reg) (hp : t.isPaused = false) (he : endTimeVal t ≠ 0) :
    updateTimerFromTimestamp t now ∈ handleVisibilityChange reg now false
    ∧ (updateTimerFromTimestamp t now).1.displayedRemaining
        = remainingSeconds (endTimeVal t) now
    ∧ (t.interval = true → endTimeVal t ≤ now →
        (updateTimerFromTimestamp t now).1.finishedCls = true
        ∧ (updateTimerFromTimestamp t now).1.interval = false
        ∧ TimerEvent.finishedNotify ∈ (updateTimerFromTimestamp t now).2) := by
  refine ⟨?_, resync_displayedRemaining t now hp, ?_⟩
  · unfold handleVisibilityChange
    rw [if_neg (by simp)]
    refine List.mem_map.mpr ⟨t, ht, ?_⟩
    simp [hp, he]
  · intro hi hle
    have h0 : remainingSeconds (endTimeVal t) now = 0 := by
      simp only [remainingSeconds, ceilDiv]
      omega
    obtain ⟨-, h2, h3, h4⟩ := resync_finishes t now hp hi h0
    exact ⟨h2, h3, h4⟩

theorem visibility_resync_witness :
    ((startTimer initTimer 1 0).1 ∈ [(startTimer initTimer 1 0).1]
      ∧ (startTimer initTimer 1 0).1.isPaused = false
      ∧ endTimeVal (startTimer initTimer 1 0).1 ≠ 0)
    ∧ (updateTimerFromTimestamp (startTimer initTimer 1 0).1 70000
        ∈ handleVisibilityChange [(startTimer initTimer 1 0).1] 70000 false
      ∧ (updateTimerFromTimestamp (startTimer initTimer 1 0).1 70000).1.displayedRemaining
          = remainingSeconds (endTimeVal (startTimer initTimer 1 0).1) 70000
      ∧ ((startTimer initTimer 1 0).1.interval = true →
          endTimeVal (startTimer initTimer 1 0).1 ≤ 70000 →
          (updateTimerFromTimestamp (startTimer initTimer 1 0).1 70000).1.finishedCls = true
          ∧ (updateTimerFromTimestamp (startTimer initTimer 1 0).1 70000).1.interval = false
          ∧ TimerEvent.finishedNotify
              ∈ (updateTimerFromTimestamp (startTimer initTimer 1 0).1 70000).2)) :=
  ⟨⟨by decide, by decide, by decide⟩,
   visibility_resync [(startTimer initTimer 1 0).1] 70000 (startTimer initTimer 1 0).1
     (by decide) (by decide) (by decide)⟩

/-- C7 (confirmed).  For a running timer, `pause(); resume()` with zero
elapsed clock time leaves the timestamp-derived remaining time exactly
unchanged (stronger than the 1-second tolerance the claim allows), and
the timer is running again afterward. -/
theorem pause_resume_roundtrip (t : Timer) (n : Int) (hi : t.interval = true)
    (_hp : t.isPaused = false) :
    (resumeTimer (pauseTimer t n) n).isPaused = false
    ∧ (resumeTimer (pauseTimer t n) n).interval = true
    ∧ (resumeTimer (pauseTimer t n) n).buttons = BtnState.running
    ∧ remainingSeconds (endTimeVal (resumeTimer (pauseTimer t n) n)) n
        = remainingSeconds (endTimeVal t) n := by
  have hpause : pauseTimer t n
      = { t with pausedRemaining := some (remainingSeconds (endTimeVal t) n),
                 isPaused := true, interval := false,
                 buttons := BtnState.paused } := by
    unfold pauseTimer
    rw [if_neg (by simp [hi])]
  rw [hpause]
  unfold resumeTimer
  rw [if_neg (by simp)]
  refine ⟨rfl, rfl, rfl, ?_⟩
  simp only [endTimeVal, Option.getD_some]
  simp only [remainingSeconds, ceilDiv]
  omega

theorem pause_resume_roundtrip_witness :
    ((startTimer initTimer 2 0).1.interval = true
      ∧ (startTimer initTimer 2 0).1.isPaused = false)
    ∧ ((resumeTimer (pauseTimer (startTimer initTimer 2 0).1 500) 500).isPaused = false
      ∧ (resumeTimer (pauseTimer (startTimer initTimer 2 0).1 500) 500).interval = true
      ∧ (resumeTimer (pauseTimer (startTimer initTimer 2 0).1 500) 500).buttons
          = BtnState.running
      ∧ remainingSeconds
          (endTimeVal (resumeTimer (pauseTimer (startTimer initTimer 2 0).1 500) 500)) 500
          = remainingSeconds (endTimeVal (startTimer initTimer 2 0).1) 500) :=
  ⟨⟨by decide, by decide⟩,
   pause_resume_roundtrip (startTimer initTimer 2 0).1 500 (by decide) (by decide)⟩

/-- C8 (confirmed).  `pause()` on a timer whose loop is not live — which
includes every reachable `Stopped` state and every reachable `Paused`
state — is a silent no-op: the whole state, hence also the remaining
time, is unchanged, and no error is raised (the operation is total). -/
theorem pause_invalid_noop (t : Timer) (n : Int) (h : Reachable t) :
    (t.interval = false → pauseTimer t n = t)
    ∧ (t.isPaused = true → pauseTimer t n = t) := by
  constructor
  · intro hi
    unfold pauseTimer
    rw [if_pos hi]
  · intro hp
    have hi := ((reachable_pauseInv t h).1 hp).2
    unfold pauseTimer
    rw [if_pos hi]

theorem pause_invalid_noop_witness :
    ((initTimer.interval = false → pauseTimer initTimer 0 = initTimer)
      ∧ (initTimer.isPaused = true → pauseTimer initTimer 0 = initTimer)) :=
  pause_invalid_noop initTimer 0 Reachable.init

/-- C9 (confirmed).  Immediately after `start` with a positive duration
of `m` minutes (no clock advance), the display reports exactly the
configured duration in seconds, the timer is running (live loop, not
paused, pause button shown), and the warning idempotency flag is
cleared. -/
theorem start_initial_display (t : Timer) (m n : Int) (hm : 0 < m) :
    (startTimer t m n).1.displayedRemaining = m * 60
    ∧ (startTimer t m n).1.total = m * 60
    ∧ (startTimer t m n).1.interval = true
    ∧ (startTimer t m n).1.isPaused = false
    ∧ (startTimer t m n).1.buttons = BtnState.running
    ∧ (startTimer t m n).1.warningSoundPlayed = false
    ∧ (startTimer t m n).2 = [] := by
  obtain ⟨-, h2, h3, h4, -, h6, h7, h8, h9⟩ := startTimer_run_pos t m n hm
  exact ⟨h8, h2, h3, h4, h7, h6, h9⟩

theorem start_initial_display_witness :
    (0 : Int) < 2
    ∧ ((startTimer initTimer 2 5).1.displayedRemaining = 2 * 60
      ∧ (startTimer initTimer 2 5).1.total = 2 * 60
      ∧ (startTimer initTimer 2 5).1.interval = true
      ∧ (startTimer initTimer 2 5).1.isPaused = false
      ∧ (startTimer initTimer 2 5).1.buttons = BtnState.running
      ∧ (startTimer initTimer 2 5).1.warningSoundPlayed = false
      ∧ (startTimer initTimer 2 5).2 = []) :=
  ⟨by decide, start_initial_display initTimer 2 5 (by decide)⟩

/-- C10 (confirmed).  Every remaining-time computation clamps at zero:
the formula itself is never negative, the values reported by the tick
loop and the resync path are never negative, and the pause snapshot is
the (non-negative) formula value. -/
theorem remaining_never_negative (t : Timer) (n e now : Int)
    (hp : t.isPaused = false) :
    0 ≤ remainingSeconds e now
    ∧ 0 ≤ (updateTimerFromTimestamp t n).1.displayedRemaining
    ∧ 0 ≤ (tick t n).1.displayedRemaining
    ∧ (t.interval = true →
        (pauseTimer t n).pausedRemaining
          = some (remainingSeconds (endTimeVal t) n)
        ∧ 0 ≤ remainingSeconds (endTimeVal t) n) := by
  refine ⟨remainingSeconds_nonneg e now, ?_, ?_, ?_⟩
  · rw [resync_displayedRemaining t n hp]
    exact remainingSeconds_nonneg _ _
  · rw [tick_displayedRemaining t n hp]
    exact remainingSeconds_nonneg _ _
  · intro hi
    refine ⟨?_, remainingSeconds_nonneg _ _⟩
    unfold pauseTimer
    rw [if_neg (by simp [hi])]

theorem remaining_never_negative_witness :
    (startTimer initTimer 1 0).1.isPaused = false
    ∧ (0 ≤ remainingSeconds 0 999999
      ∧ 0 ≤ (updateTimerFromTimestamp (startTimer initTimer 1 0).1
              123456789).1.displayedRemaining
      ∧ 0 ≤ (tick (startTimer initTimer 1 0).1 123456789).1.displayedRemaining
      ∧ ((startTimer initTimer 1 0).1.interval = true →
          (pauseTimer (startTimer initTimer 1 0).1 123456789).pausedRemaining
            = some (remainingSeconds (endTimeVal (startTimer initTimer 1 0).1)
                123456789)
          ∧ 0 ≤ remainingSeconds (endTimeVal (startTimer initTimer 1 0).1)
              123456789)) :=
  ⟨by decide,
   remaining_never_negative (startTimer initTimer 1 0).1 123456789 0 999999
     (by decide)⟩

end Cuisiner
